import Mathlib

/-!
Verification of the multi-step VR Studio wizard controller
(`src/static/js/vr_wizard.js`) and the generation-page form handler
(`src/unnamed/part_001`, the VR Studio "ComplicationAI" generate page).

The embedding is shallow: the module-scoped mutable variables of the page
(`currentStep`, `selectedProcedure`, `generatedProjectId`, the stored
`window.generatedScripts` and the `#codePreview` pane) become fields of an
explicit state record, and each DOM event handler becomes a function from
the state (plus the data the environment supplies, such as the outcome of
the `fetch` call) to the new state together with the toasts it shows.
-/

namespace VRWizard

/-- A generated script `{filename, content}` as returned by the server. -/
structure Script where
  filename : String
  content : String
  deriving Repr, DecidableEq

/-- The parsed JSON body of a generation response:
`{success, project_id, scripts, error}` (the fields the handlers read). -/
structure GenData where
  success : Bool
  project_id : Option String
  scripts : List Script
  error : Option String
  deriving Repr, DecidableEq

/-- Outcome of `await fetch(...)` followed by `await response.json()`:
either a transport/parse failure (the promise rejects, caught by the
handler's `catch`), or a response with an HTTP status code and a parsed
JSON body. -/
inductive FetchOutcome where
  | netError (msg : String)
  | ok (status : Nat) (data : GenData)
  deriving Repr, DecidableEq

/-- Toast severity, the second argument of `showToast` (default `success`). -/
inductive ToastType where
  | success
  | warning
  | error
  deriving Repr, DecidableEq

/-- One `showToast(message, type)` call. -/
structure Toast where
  message : String
  ttype : ToastType
  deriving Repr, DecidableEq

/-- Contents of the `#codePreview` pane of the wizard page. -/
inductive Preview where
  | initial
  | loading
  | errorMsg (msg : String)
  | noCode
  | scriptsView (scripts : List Script)
  deriving Repr, DecidableEq

/-- An entry of `window.VR_STUDIO_DATA.procedures`: the fields the wizard
reads (`key`, `name_sv`). -/
structure Procedure where
  key : String
  name_sv : String
  deriving Repr, DecidableEq

/-- The module-scoped state of `vr_wizard.js`: `currentStep`,
`selectedProcedure`, `generatedProjectId`, plus the observable pieces of
presentation state the claims mention (`window.generatedScripts`, the
`#codePreview` pane, and whether `#generateCodeBtn` is disabled). -/
structure WizardState where
  currentStep : Nat
  selectedProcedure : Option String
  generatedProjectId : Option String
  storedScripts : Option (List Script)
  codePreview : Preview
  generateBtnDisabled : Bool
  deriving Repr, DecidableEq

/-- Source: `const totalSteps = 5`. -/
def totalSteps : Nat := 5

/-- The state on `DOMContentLoaded`: `currentStep = 1`, both identifiers
null, nothing generated or rendered yet. -/
def initState : WizardState :=
  { currentStep := 1
    selectedProcedure := none
    generatedProjectId := none
    storedScripts := none
    codePreview := Preview.initial
    generateBtnDisabled := false }

/-- Function `validateStep(step)`: fails with a warning toast when `step === 1` and
no procedure is selected, or when `step === 3` and no project has been
generated; succeeds (with no toast) otherwise. -/
def validateStep (s : WizardState) (step : Nat) : Bool × List Toast :=
  if step = 1 ∧ s.selectedProcedure = none then
    (false, [⟨"Välj en procedur först", ToastType.warning⟩])
  else if step = 3 ∧ s.generatedProjectId = none then
    (false, [⟨"Generera kod först", ToastType.warning⟩])
  else
    (true, [])

/-- Function `goToStep(step)`: sets `currentStep = step`.  The DOM work it performs
(class toggling, progress bar, step-specific list loading) does not touch
the state fields modelled here. -/
def goToStep (s : WizardState) (step : Nat) : WizardState :=
  { s with currentStep := step }

/-- The `nextBtn` click listener installed by `setupNavigation`:
`if (validateStep(currentStep)) { if (currentStep < totalSteps)
goToStep(currentStep + 1) }`.  Returns the new state and the toasts shown. -/
def nextBtnClick (s : WizardState) : WizardState × List Toast :=
  let v := validateStep s s.currentStep
  if v.1 then
    if s.currentStep < totalSteps then (goToStep s (s.currentStep + 1), v.2)
    else (s, v.2)
  else (s, v.2)

/-- The `prevBtn` click listener installed by `setupNavigation`:
`if (currentStep > 1) goToStep(currentStep - 1)`. -/
def prevBtnClick (s : WizardState) : WizardState :=
  if s.currentStep > 1 then goToStep s (s.currentStep - 1) else s

/-- The procedure-card click listener installed by `setupProcedureCards`.
It always sets `selectedProcedure = this.dataset.procedure` first, then
looks the key up in `procedures`; when the lookup succeeds it updates the
header and shows the `"<name_sv> vald"` toast.  When it fails, the
unguarded template `` `${proc.name_sv} vald` `` on the `showToast` line
dereferences `undefined` and the handler throws a `TypeError` (modelled as
`Except.error`); the selection assignment has already happened. -/
def procedureCardClick (procedures : List Procedure) (id : String)
    (s : WizardState) : WizardState × Except String (List Toast) :=
  let s1 := { s with selectedProcedure := some id }
  match procedures.find? (fun p => p.key == id) with
  | some proc => (s1, Except.ok [⟨proc.name_sv ++ " vald", ToastType.success⟩])
  | none => (s1, Except.error "TypeError: cannot read properties of undefined")

/-- Function `generateCode()` in `vr_wizard.js`, from the point where the request is
issued: the button is disabled and the loading placeholder shown, then the
fetch settles with `outcome`.  On a successful body (`data.success`) the
project id is recorded and `renderGeneratedCode` runs (which stores and
renders the scripts only when the list is non-empty); otherwise the error
message (`data.error || 'Okänt fel'`, or the network error message) is
toasted and rendered.  The `finally` block re-enables the button.  The HTTP
status of the response is never inspected. -/
def generateCode (s : WizardState) (outcome : FetchOutcome) :
    WizardState × List Toast :=
  let s1 := { s with generateBtnDisabled := true, codePreview := Preview.loading }
  match outcome with
  | FetchOutcome.ok _ data =>
      if data.success then
        let s2 := { s1 with generatedProjectId := data.project_id }
        let s3 :=
          if data.scripts.isEmpty then { s2 with codePreview := Preview.noCode }
          else { s2 with codePreview := Preview.scriptsView data.scripts,
                         storedScripts := some data.scripts }
        ({ s3 with generateBtnDisabled := false },
         [⟨"Kod genererad!", ToastType.success⟩])
      else
        let msg := data.error.getD "Okänt fel"
        ({ s1 with codePreview := Preview.errorMsg msg, generateBtnDisabled := false },
         [⟨"Fel: " ++ msg, ToastType.error⟩])
  | FetchOutcome.netError msg =>
      ({ s1 with codePreview := Preview.errorMsg msg, generateBtnDisabled := false },
       [⟨"Fel: " ++ msg, ToastType.error⟩])

/-- The `#downloadProjectBtn` click listener installed by
`loadPackageList`: when `generatedProjectId` is set it navigates to
`/vr-studio/download/<id>` (returned as the optional navigation target;
no response is processed) and toasts; otherwise it warns and makes no
request. -/
def downloadBtnClick (s : WizardState) :
    WizardState × Option String × List Toast :=
  match s.generatedProjectId with
  | some pid =>
      (s, some ("/vr-studio/download/" ++ pid),
       [⟨"Laddar ner...", ToastType.success⟩])
  | none =>
      (s, none, [⟨"Generera kod först (steg 3)", ToastType.warning⟩])

/-- The user-initiated operations of the wizard controller, each carrying
the data the environment supplies to its handler. -/
inductive WizardOp where
  | next
  | back
  | select (id : String)
  | generate (outcome : FetchOutcome)
  | download
  deriving Repr, DecidableEq

/-- Apply one operation to the state (discarding toasts, navigation and
thrown errors, which do not affect the stored state). -/
def applyOp (procedures : List Procedure) (s : WizardState) :
    WizardOp → WizardState
  | WizardOp.next => (nextBtnClick s).1
  | WizardOp.back => prevBtnClick s
  | WizardOp.select id => (procedureCardClick procedures id s).1
  | WizardOp.generate outcome => (generateCode s outcome).1
  | WizardOp.download => (downloadBtnClick s).1

/-- Run a sequence of operations from a state. -/
def applyOps (procedures : List Procedure) (s : WizardState)
    (ops : List WizardOp) : WizardState :=
  ops.foldl (applyOp procedures) s

/-- Run a sequence of operations from the initial page state. -/
def runOps (procedures : List Procedure) (ops : List WizardOp) : WizardState :=
  applyOps procedures initState ops

/-!
The generation page (`src/unnamed/part_001`).  Its `#generateForm` submit
handler validates the trimmed prompt before any network activity; the
wizard-relevant state is `currentProjectId` and `generatedScripts`.
-/

/-- Strip leading whitespace characters from a character list. -/
def dropLeadingWs : List Char → List Char
  | [] => []
  | c :: cs => if c.isWhitespace then dropLeadingWs cs else c :: cs

/-- JavaScript `String.prototype.trim()`: strip whitespace from both ends
(structurally recursive so that concrete inputs evaluate). -/
def jsTrim (s : String) : String :=
  ⟨(dropLeadingWs ((dropLeadingWs s.data).reverse)).reverse⟩

/-- The JSON body sent by the generate-page submit handler:
`{prompt, procedure_type, complexity, language}`. -/
structure GenRequestBody where
  prompt : String
  procedure_type : Option String
  complexity : String
  language : String
  deriving Repr, DecidableEq

/-- The module-scoped state of the generate page: `currentProjectId` and
`generatedScripts`. -/
structure GenPageState where
  currentProjectId : Option String
  generatedScripts : List Script
  deriving Repr, DecidableEq

/-- The generate-page state on `DOMContentLoaded`. -/
def genPageInit : GenPageState := { currentProjectId := none, generatedScripts := [] }

/-- The `#generateForm` submit handler of the generate page.  It trims the
prompt input; when the result is empty it warns (`'Skriv en prompt först'`)
and returns before any fetch.  Otherwise it issues exactly one request
(the returned optional body; `none` means no network call was made) whose
settlement is `outcome`: on `data.success` it stores
`currentProjectId = data.project_id` and `generatedScripts = data.scripts
|| []`; on any failure the state is left unchanged and the error is
toasted.  The HTTP status is never inspected here either. -/
def generateSubmit (st : GenPageState) (promptValue : String)
    (procedureType : Option String) (complexity : String)
    (outcome : FetchOutcome) :
    GenPageState × Option GenRequestBody × List Toast :=
  let prompt := jsTrim promptValue
  if prompt = "" then
    (st, none, [⟨"Skriv en prompt först", ToastType.warning⟩])
  else
    let body : GenRequestBody :=
      { prompt := prompt, procedure_type := procedureType,
        complexity := complexity, language := "sv" }
    match outcome with
    | FetchOutcome.ok _ data =>
        if data.success then
          ({ currentProjectId := data.project_id, generatedScripts := data.scripts },
           some body, [⟨"Kod genererad!", ToastType.success⟩])
        else
          (st, some body,
           [⟨"Fel: " ++ data.error.getD "Okänt fel", ToastType.error⟩])
    | FetchOutcome.netError msg =>
        (st, some body, [⟨"Fel: " ++ msg, ToastType.error⟩])

/-!
The single-flight discipline of the generation request.  `generateCode`
disables `#generateCodeBtn` synchronously before its only suspension point
(the `await fetch`) and re-enables it in `finally` when the call settles;
per DOM semantics a disabled button dispatches no `click` events, so the
handler is not re-entered while a call is in flight.  The event loop is
single-threaded, so it suffices to model the interleaving of two atomic
events: a user click on the control, and the settlement of an in-flight
request.
-/

/-- Observable request/busy bookkeeping: whether the invoking control is
disabled, how many requests are currently in flight, and how many network
calls have been issued in total. -/
structure BusyMachine where
  btnDisabled : Bool
  inFlight : Nat
  callsIssued : Nat
  deriving Repr, DecidableEq

/-- The two events that touch the busy state. -/
inductive BusyEvent where
  | click
  | settle
  deriving Repr, DecidableEq

/-- One event step: a click on a disabled control is swallowed by the DOM;
a click on an enabled control runs the handler, which disables the control
and issues exactly one call before suspending; a settlement runs the
`finally` block, re-enabling the control. -/
def busyStep (m : BusyMachine) : BusyEvent → BusyMachine
  | BusyEvent.click =>
      if m.btnDisabled then m
      else { btnDisabled := true, inFlight := m.inFlight + 1,
             callsIssued := m.callsIssued + 1 }
  | BusyEvent.settle =>
      if 0 < m.inFlight then
        { btnDisabled := false, inFlight := m.inFlight - 1,
          callsIssued := m.callsIssued }
      else m

/-- Page-load busy state: control enabled, nothing in flight. -/
def busyInit : BusyMachine := { btnDisabled := false, inFlight := 0, callsIssued := 0 }

/-- Run a sequence of events from the page-load busy state. -/
def busyRun (evs : List BusyEvent) : BusyMachine := evs.foldl busyStep busyInit

/-- The single-flight invariant: never more than one request in flight,
and the control is disabled exactly while one is. -/
def busyInv (m : BusyMachine) : Prop :=
  m.inFlight ≤ 1 ∧ (m.btnDisabled = true ↔ m.inFlight = 1)

/-- A failed generation fetch in the sense of the error-handling design:
a transport failure, or a body with `success == false` (the `catch` path
of `generateCode`). -/
def failedOutcome : FetchOutcome → Bool
  | FetchOutcome.netError _ => true
  | FetchOutcome.ok _ d => !d.success

/-!
Helper lemmas: which fields each handler can change.
-/

lemma nextBtnClick_fst (s : WizardState) :
    (nextBtnClick s).1 = s ∨
    (s.currentStep < totalSteps ∧
      (nextBtnClick s).1 = { s with currentStep := s.currentStep + 1 }) := by
  unfold nextBtnClick
  by_cases hv : (validateStep s s.currentStep).1 <;>
    by_cases hc : s.currentStep < totalSteps <;>
      simp [hv, hc, goToStep]

lemma prevBtnClick_eq (s : WizardState) :
    prevBtnClick s = s ∨
    (1 < s.currentStep ∧
      prevBtnClick s = { s with currentStep := s.currentStep - 1 }) := by
  unfold prevBtnClick
  split_ifs with h
  · exact Or.inr ⟨h, rfl⟩
  · exact Or.inl rfl

lemma procedureCardClick_fst (procedures : List Procedure) (id : String)
    (s : WizardState) :
    (procedureCardClick procedures id s).1 =
      { s with selectedProcedure := some id } := by
  unfold procedureCardClick
  cases List.find? (fun p => p.key == id) procedures <;> rfl

lemma generateCode_currentStep (s : WizardState) (o : FetchOutcome) :
    (generateCode s o).1.currentStep = s.currentStep := by
  unfold generateCode
  rcases o with msg | ⟨status, d⟩
  · rfl
  · dsimp only
    split_ifs <;> rfl

lemma generateCode_selectedProcedure (s : WizardState) (o : FetchOutcome) :
    (generateCode s o).1.selectedProcedure = s.selectedProcedure := by
  unfold generateCode
  rcases o with msg | ⟨status, d⟩
  · rfl
  · dsimp only
    split_ifs <;> rfl

lemma downloadBtnClick_fst (s : WizardState) : (downloadBtnClick s).1 = s := by
  unfold downloadBtnClick
  cases s.generatedProjectId <;> rfl

lemma applyOp_currentStep_bounds (procedures : List Procedure)
    (s : WizardState) (op : WizardOp)
    (h1 : 1 ≤ s.currentStep) (h5 : s.currentStep ≤ 5) :
    1 ≤ (applyOp procedures s op).currentStep ∧
      (applyOp procedures s op).currentStep ≤ 5 := by
  cases op with
  | next =>
      rcases nextBtnClick_fst s with h | ⟨hc, h⟩ <;>
        simp only [applyOp, h]
      · exact ⟨h1, h5⟩
      · refine ⟨by omega, ?_⟩
        show s.currentStep + 1 ≤ 5
        simp only [totalSteps] at hc
        omega
  | back =>
      rcases prevBtnClick_eq s with h | ⟨hc, h⟩ <;>
        simp only [applyOp, h]
      · exact ⟨h1, h5⟩
      · constructor
        · show 1 ≤ s.currentStep - 1
          omega
        · show s.currentStep - 1 ≤ 5
          omega
  | select id =>
      have h := procedureCardClick_fst procedures id s
      simp only [applyOp, h]
      exact ⟨h1, h5⟩
  | generate o =>
      have h := generateCode_currentStep s o
      simp only [applyOp, h]
      exact ⟨h1, h5⟩
  | download =>
      have h := downloadBtnClick_fst s
      simp only [applyOp, h]
      exact ⟨h1, h5⟩

lemma applyOps_currentStep_bounds (procedures : List Procedure)
    (ops : List WizardOp) (s : WizardState)
    (h1 : 1 ≤ s.currentStep) (h5 : s.currentStep ≤ 5) :
    1 ≤ (applyOps procedures s ops).currentStep ∧
      (applyOps procedures s ops).currentStep ≤ 5 := by
  induction ops generalizing s with
  | nil => exact ⟨h1, h5⟩
  | cons op tl ih =>
      have h := applyOp_currentStep_bounds procedures s op h1 h5
      exact ih (applyOp procedures s op) h.1 h.2

lemma busyStep_inv (m : BusyMachine) (e : BusyEvent) (h : busyInv m) :
    busyInv (busyStep m e) := by
  obtain ⟨h1, h2⟩ := h
  cases e with
  | click =>
      show busyInv (if m.btnDisabled then m
        else { btnDisabled := true, inFlight := m.inFlight + 1,
               callsIssued := m.callsIssued + 1 })
      split_ifs with hc
      · exact ⟨h1, h2⟩
      · have h0 : m.inFlight = 0 := by
          rcases Nat.lt_or_ge m.inFlight 1 with hl | hg
          · omega
          · have he : m.inFlight = 1 := by omega
            exact absurd (h2.mpr he) (by simpa using hc)
        unfold busyInv
        simp [h0]
  | settle =>
      show busyInv (if 0 < m.inFlight then
        { btnDisabled := false, inFlight := m.inFlight - 1,
          callsIssued := m.callsIssued } else m)
      split_ifs with hc
      · have he : m.inFlight = 1 := by omega
        unfold busyInv
        simp [he]
      · exact ⟨h1, h2⟩

lemma busyInv_foldl (evs : List BusyEvent) (m : BusyMachine) (h : busyInv m) :
    busyInv (evs.foldl busyStep m) := by
  induction evs generalizing m with
  | nil => exact h
  | cons e tl ih => exact ih (busyStep m e) (busyStep_inv m e h)

lemma applyOp_selection_ne_none (procedures : List Procedure)
    (s : WizardState) (op : WizardOp) (h : s.selectedProcedure ≠ none) :
    (applyOp procedures s op).selectedProcedure ≠ none := by
  cases op with
  | next =>
      rcases nextBtnClick_fst s with hn | ⟨_, hn⟩ <;>
        simp only [applyOp, hn] <;> exact h
  | back =>
      rcases prevBtnClick_eq s with hn | ⟨_, hn⟩ <;>
        simp only [applyOp, hn] <;> exact h
  | select id =>
      simp only [applyOp, procedureCardClick_fst]
      simp
  | generate o =>
      have hg := generateCode_selectedProcedure s o
      simp only [applyOp, hg]
      exact h
  | download =>
      simp only [applyOp, downloadBtnClick_fst]
      exact h

lemma validateStep3_none (r : WizardState) (h3 : r.currentStep = 3)
    (hn : r.generatedProjectId = none) :
    validateStep r r.currentStep
      = (false, [⟨"Generera kod först", ToastType.warning⟩]) := by
  unfold validateStep
  simp [h3, hn]

lemma nextBtnClick_invalid (r : WizardState)
    (h : (validateStep r r.currentStep).1 = false) :
    nextBtnClick r = (r, (validateStep r r.currentStep).2) := by
  unfold nextBtnClick
  simp [h]

/-!
The claims.
-/

/-- C1: for every wizard state whose step lies in 1..5, the `nextBtn`
handler (`goNext`) moves the state to step + 1 exactly when the step is
below 5 and `validateStep` succeeds; `validateStep` fails exactly when the
step is 1 with no selection or 3 with no generated project; and on a
validation failure the state is unchanged and a warning toast is shown. -/
theorem goNext_gating (s : WizardState)
    (hlo : 1 ≤ s.currentStep) (hhi : s.currentStep ≤ 5) :
    ((validateStep s s.currentStep).1 = false ↔
      ((s.currentStep = 1 ∧ s.selectedProcedure = none) ∨
       (s.currentStep = 3 ∧ s.generatedProjectId = none)))
    ∧ ((nextBtnClick s).1 =
        if s.currentStep < totalSteps ∧ (validateStep s s.currentStep).1 = true
        then { s with currentStep := s.currentStep + 1 } else s)
    ∧ ((validateStep s s.currentStep).1 = false →
        (nextBtnClick s).1 = s ∧
        ∃ t ∈ (nextBtnClick s).2, t.ttype = ToastType.warning) := by
  obtain ⟨c, sel, gen, ss, cp, bd⟩ := s
  by_cases h1 : c = 1 <;> by_cases h3 : c = 3 <;>
    cases sel <;> cases gen <;>
      simp_all [nextBtnClick, validateStep, goToStep, totalSteps] <;>
        split_ifs <;> rfl

/-- Witness for C1 at the initial state (step 1, nothing selected). -/
theorem goNext_gating_witness :
    1 ≤ initState.currentStep ∧ initState.currentStep ≤ 5 ∧
    ((validateStep initState initState.currentStep).1 = false ↔
      ((initState.currentStep = 1 ∧ initState.selectedProcedure = none) ∨
       (initState.currentStep = 3 ∧ initState.generatedProjectId = none)))
    ∧ ((nextBtnClick initState).1 =
        if initState.currentStep < totalSteps ∧
            (validateStep initState initState.currentStep).1 = true
        then { initState with currentStep := initState.currentStep + 1 }
        else initState)
    ∧ ((validateStep initState initState.currentStep).1 = false →
        (nextBtnClick initState).1 = initState ∧
        ∃ t ∈ (nextBtnClick initState).2, t.ttype = ToastType.warning) :=
  ⟨by decide, by decide, goNext_gating initState (by decide) (by decide)⟩

/-- C2: from the initial state, any sequence of wizard operations keeps
`currentStep` within [1, 5]; the `prevBtn` handler (`goBack`) from any
state with step > 1 moves to step − 1, and from any state with step ≥ 1 it
never leaves the step below 1. -/
theorem currentStep_range_invariant (procedures : List Procedure)
    (ops : List WizardOp) :
    (1 ≤ (runOps procedures ops).currentStep ∧
      (runOps procedures ops).currentStep ≤ 5)
    ∧ (∀ s : WizardState, 1 < s.currentStep →
        (prevBtnClick s).currentStep = s.currentStep - 1)
    ∧ (∀ s : WizardState, 1 ≤ s.currentStep →
        1 ≤ (prevBtnClick s).currentStep) := by
  refine ⟨applyOps_currentStep_bounds procedures ops initState (by decide) (by decide),
    ?_, ?_⟩
  · intro s h
    unfold prevBtnClick
    split_ifs with hc
    · rfl
    · omega
  · intro s h
    unfold prevBtnClick
    split_ifs with hc
    · show 1 ≤ s.currentStep - 1
      omega
    · exact h

/-- Witness for C2: a concrete run (back at step 1 is a no-op, then next
fails validation at step 1), and `goBack` applied at step 3. -/
theorem currentStep_range_invariant_witness :
    (1 ≤ (runOps [] [WizardOp.back, WizardOp.next]).currentStep ∧
      (runOps [] [WizardOp.back, WizardOp.next]).currentStep ≤ 5)
    ∧ (prevBtnClick { initState with currentStep := 3 }).currentStep = 2
    ∧ 1 ≤ (prevBtnClick { initState with currentStep := 1 }).currentStep := by
  refine ⟨(currentStep_range_invariant [] [WizardOp.back, WizardOp.next]).1, ?_, ?_⟩
  · have h := (currentStep_range_invariant [] []).2.1
      { initState with currentStep := 3 } (by decide)
    simpa using h
  · exact (currentStep_range_invariant [] []).2.2
      { initState with currentStep := 1 } (by decide)

/-- C3 as stated is false for its "non-success response" (non-2xx) arm:
`generateCode` never inspects the HTTP status, so a 500 response whose
body says `success:true` is not treated as a failure at all — it changes
`generatedProjectId` from null to the body's id, so the attempt does not
leave the state identical to before it. -/
theorem non2xx_changes_artifact :
    ({ initState with currentStep := 3 } : WizardState).generatedProjectId
      = none
    ∧ (generateCode { initState with currentStep := 3 }
        (FetchOutcome.ok 500
          { success := true, project_id := some "p9", scripts := [],
            error := none })).1.generatedProjectId = some "p9" := by
  decide

/-- C3 amended: when a generation attempt fails on one of the paths the
code actually treats as failure — a network error, or a body with
`success == false` (the HTTP status is never inspected, so a non-2xx
response is not by itself a failure) — `generatedProjectId` and the whole
step-gating state (step, selection) are exactly what they were before the
attempt, and a subsequent `goNext` from the generation step (step 3) still
fails with a warning when no earlier attempt had succeeded. -/
theorem generate_failure_preserves_artifact (s : WizardState)
    (o : FetchOutcome) (h : failedOutcome o = true) :
    (generateCode s o).1.generatedProjectId = s.generatedProjectId
    ∧ (generateCode s o).1.selectedProcedure = s.selectedProcedure
    ∧ (generateCode s o).1.currentStep = s.currentStep
    ∧ (s.currentStep = 3 → s.generatedProjectId = none →
        (nextBtnClick (generateCode s o).1).1 = (generateCode s o).1
        ∧ ∃ t ∈ (nextBtnClick (generateCode s o).1).2,
            t.ttype = ToastType.warning) := by
  have hgen : (generateCode s o).1.generatedProjectId = s.generatedProjectId := by
    rcases o with msg | ⟨status, d⟩
    · rfl
    · have hd : d.success = false := by simpa [failedOutcome] using h
      unfold generateCode
      simp [hd]
  refine ⟨hgen, generateCode_selectedProcedure s o,
    generateCode_currentStep s o, ?_⟩
  intro h3 hnone
  have hr3 : (generateCode s o).1.currentStep = 3 := by
    rw [generateCode_currentStep, h3]
  have hrnone : (generateCode s o).1.generatedProjectId = none := by
    rw [hgen, hnone]
  have hval := validateStep3_none (generateCode s o).1 hr3 hrnone
  have hnext := nextBtnClick_invalid (generateCode s o).1 (by rw [hval])
  rw [hnext, hval]
  exact ⟨rfl, ⟨"Generera kod först", ToastType.warning⟩, by simp, rfl⟩

/-- Witness for C3 (amended): a network error at step 3 with nothing
generated. -/
theorem generate_failure_preserves_artifact_witness :
    failedOutcome (FetchOutcome.netError "timeout") = true
    ∧ ((generateCode { initState with currentStep := 3 }
          (FetchOutcome.netError "timeout")).1.generatedProjectId
        = ({ initState with currentStep := 3 } : WizardState).generatedProjectId
      ∧ (generateCode { initState with currentStep := 3 }
          (FetchOutcome.netError "timeout")).1.selectedProcedure
        = ({ initState with currentStep := 3 } : WizardState).selectedProcedure
      ∧ (generateCode { initState with currentStep := 3 }
          (FetchOutcome.netError "timeout")).1.currentStep
        = ({ initState with currentStep := 3 } : WizardState).currentStep
      ∧ (({ initState with currentStep := 3 } : WizardState).currentStep = 3 →
          ({ initState with currentStep := 3 } : WizardState).generatedProjectId = none →
          (nextBtnClick (generateCode { initState with currentStep := 3 }
              (FetchOutcome.netError "timeout")).1).1
            = (generateCode { initState with currentStep := 3 }
                (FetchOutcome.netError "timeout")).1
          ∧ ∃ t ∈ (nextBtnClick (generateCode { initState with currentStep := 3 }
              (FetchOutcome.netError "timeout")).1).2,
              t.ttype = ToastType.warning)) :=
  ⟨by decide,
   generate_failure_preserves_artifact { initState with currentStep := 3 }
     (FetchOutcome.netError "timeout") (by decide)⟩

/-- C4: submitting the generation form with an empty prompt warns
(`'Skriv en prompt först'`), issues no network call (the optional request
body is `none`), and leaves the page state unchanged, for every prior
state and every would-be outcome. -/
theorem empty_prompt_no_call (st : GenPageState)
    (procedureType : Option String) (complexity : String)
    (outcome : FetchOutcome) :
    generateSubmit st "" procedureType complexity outcome
      = (st, none, [⟨"Skriv en prompt först", ToastType.warning⟩]) := by
  unfold generateSubmit
  rfl

/-- C5 as stated is false: a response with `success == true` but a null
`project_id` (both fields the spec's own data model allows) leaves
`generatedProjectId` null, stores no scripts, and a subsequent `goNext`
from step 3 still fails. -/
theorem success_without_artifact_blocks_goNext :
    (generateCode { initState with currentStep := 3 }
        (FetchOutcome.ok 200
          { success := true, project_id := none, scripts := [], error := none })).1.generatedProjectId
      = none
    ∧ (generateCode { initState with currentStep := 3 }
        (FetchOutcome.ok 200
          { success := true, project_id := none, scripts := [], error := none })).1.storedScripts
      = none
    ∧ (nextBtnClick (generateCode { initState with currentStep := 3 }
        (FetchOutcome.ok 200
          { success := true, project_id := none, scripts := [], error := none })).1).1.currentStep
      = 3 := by
  decide

/-- C5 amended: on a `success == true` response, `generatedProjectId` is
set to the response's `project_id` (which may itself be null), the toast
reports success, and the busy indicator is cleared; when the script list
is non-empty the scripts are stored and rendered; and when additionally
`project_id` is non-null, a subsequent `goNext` from the generation step
moves to step 4. -/
theorem generate_success_sets_artifact (s : WizardState) (status : Nat)
    (d : GenData) (h : d.success = true) :
    (generateCode s (FetchOutcome.ok status d)).1.generatedProjectId = d.project_id
    ∧ (generateCode s (FetchOutcome.ok status d)).1.generateBtnDisabled = false
    ∧ (generateCode s (FetchOutcome.ok status d)).2
        = [⟨"Kod genererad!", ToastType.success⟩]
    ∧ (d.scripts ≠ [] →
        (generateCode s (FetchOutcome.ok status d)).1.storedScripts = some d.scripts
        ∧ (generateCode s (FetchOutcome.ok status d)).1.codePreview
            = Preview.scriptsView d.scripts)
    ∧ (s.currentStep = 3 → d.project_id ≠ none →
        (nextBtnClick (generateCode s (FetchOutcome.ok status d)).1).1.currentStep = 4) := by
  have hred : generateCode s (FetchOutcome.ok status d) =
      (if d.scripts.isEmpty then
        { s with generatedProjectId := d.project_id,
                 codePreview := Preview.noCode, generateBtnDisabled := false }
       else
        { s with generatedProjectId := d.project_id,
                 codePreview := Preview.scriptsView d.scripts,
                 storedScripts := some d.scripts, generateBtnDisabled := false },
       [⟨"Kod genererad!", ToastType.success⟩]) := by
    unfold generateCode
    simp only [h, if_true]
    split_ifs <;> rfl
  have hgen : (generateCode s (FetchOutcome.ok status d)).1.generatedProjectId
      = d.project_id := by
    rw [hred]; split_ifs <;> rfl
  refine ⟨hgen, ?_, ?_, ?_, ?_⟩
  · rw [hred]; split_ifs <;> rfl
  · rw [hred]
  · intro hs
    have hempty : d.scripts.isEmpty = false := by
      cases hd : d.scripts with
      | nil => exact absurd hd hs
      | cons a tl => simp [hd]
    rw [hred, hempty]
    exact ⟨rfl, rfl⟩
  · intro h3 hpid
    have hstep : (generateCode s (FetchOutcome.ok status d)).1.currentStep = 3 := by
      rw [generateCode_currentStep, h3]
    have hval : (validateStep (generateCode s (FetchOutcome.ok status d)).1 3).1
        = true := by
      unfold validateStep
      simp [hgen, hpid]
    unfold nextBtnClick
    simp [hstep, hval, goToStep, totalSteps]

/-- Witness for C5 (amended) at a successful response carrying a project
id and one script, received at step 3. -/
theorem generate_success_sets_artifact_witness :
    ({ success := true, project_id := some "p1",
       scripts := [⟨"A.cs", "code"⟩], error := none } : GenData).success = true
    ∧ (generateCode { initState with currentStep := 3 }
        (FetchOutcome.ok 200
          { success := true, project_id := some "p1",
            scripts := [⟨"A.cs", "code"⟩], error := none })).1.generatedProjectId
      = some "p1"
    ∧ (nextBtnClick (generateCode { initState with currentStep := 3 }
        (FetchOutcome.ok 200
          { success := true, project_id := some "p1",
            scripts := [⟨"A.cs", "code"⟩], error := none })).1).1.currentStep = 4 := by
  have h := generate_success_sets_artifact { initState with currentStep := 3 } 200
    { success := true, project_id := some "p1",
      scripts := [⟨"A.cs", "code"⟩], error := none } (by decide)
  exact ⟨by decide, h.1, h.2.2.2.2 (by decide) (by decide)⟩

/-- C6: from page load, at most one generation request is ever in flight
and the invoking control is disabled exactly while one is; a click on the
disabled (busy) control changes nothing — zero additional calls; a click
on the enabled control issues exactly one call and disables the control;
and a settlement (whether the request succeeded or failed — `finally`)
clears the busy indicator and issues no call. -/
theorem single_generation_in_flight (evs : List BusyEvent) :
    (busyRun evs).inFlight ≤ 1
    ∧ ((busyRun evs).btnDisabled = true ↔ (busyRun evs).inFlight = 1)
    ∧ (∀ m : BusyMachine, m.btnDisabled = true →
        busyStep m BusyEvent.click = m)
    ∧ (∀ m : BusyMachine, m.btnDisabled = false →
        (busyStep m BusyEvent.click).callsIssued = m.callsIssued + 1
        ∧ (busyStep m BusyEvent.click).inFlight = m.inFlight + 1
        ∧ (busyStep m BusyEvent.click).btnDisabled = true)
    ∧ (∀ m : BusyMachine, 0 < m.inFlight →
        (busyStep m BusyEvent.settle).btnDisabled = false
        ∧ (busyStep m BusyEvent.settle).inFlight = m.inFlight - 1
        ∧ (busyStep m BusyEvent.settle).callsIssued = m.callsIssued) := by
  have hinit : busyInv busyInit := by
    unfold busyInv busyInit
    simp
  have hinv := busyInv_foldl evs busyInit hinit
  refine ⟨hinv.1, hinv.2, ?_, ?_, ?_⟩
  · intro m hm
    unfold busyStep
    simp [hm]
  · intro m hm
    unfold busyStep
    simp [hm]
  · intro m hm
    unfold busyStep
    simp [hm]

/-- Witness for C6: a double click then a settlement, plus concrete
machines for the per-event conjuncts. -/
theorem single_generation_in_flight_witness :
    (busyRun [BusyEvent.click, BusyEvent.click, BusyEvent.settle]).inFlight ≤ 1
    ∧ busyStep ⟨true, 1, 1⟩ BusyEvent.click = ⟨true, 1, 1⟩
    ∧ (busyStep ⟨false, 0, 0⟩ BusyEvent.click).callsIssued = 0 + 1
    ∧ (busyStep ⟨true, 1, 1⟩ BusyEvent.settle).btnDisabled = false :=
  ⟨(single_generation_in_flight [BusyEvent.click, BusyEvent.click, BusyEvent.settle]).1,
   (single_generation_in_flight []).2.2.1 ⟨true, 1, 1⟩ rfl,
   ((single_generation_in_flight []).2.2.2.1 ⟨false, 0, 0⟩ rfl).1,
   ((single_generation_in_flight []).2.2.2.2 ⟨true, 1, 1⟩ (by decide)).1⟩

/-- C7 (the code contradicts it): clicking a procedure card whose id is
not in `procedures` still sets the selection and leaves the step alone,
but the handler then throws a `TypeError` on the unguarded
`proc.name_sv` in the `showToast` template — it does not fall back to a
raw label. -/
theorem unknown_procedure_click_throws :
    (procedureCardClick [⟨"hoftprotes", "Höftprotes"⟩] "okand"
        initState).1.selectedProcedure = some "okand"
    ∧ (procedureCardClick [⟨"hoftprotes", "Höftprotes"⟩] "okand"
        initState).1.currentStep = 1
    ∧ (procedureCardClick [⟨"hoftprotes", "Höftprotes"⟩] "okand"
        initState).2
      = Except.error "TypeError: cannot read properties of undefined" :=
  ⟨rfl, rfl, rfl⟩

/-- C8 as stated is false for its non-2xx arm: the handler never inspects
the HTTP status, so a 500 response whose body says `success:true` is
treated as a success — no error is surfaced and the project id is
recorded. -/
theorem non2xx_success_body_not_an_error :
    (generateCode initState (FetchOutcome.ok 500
        { success := true, project_id := some "p1", scripts := [],
          error := none })).2
      = [⟨"Kod genererad!", ToastType.success⟩]
    ∧ (generateCode initState (FetchOutcome.ok 500
        { success := true, project_id := some "p1", scripts := [],
          error := none })).1.generatedProjectId = some "p1" := by
  decide

/-- C8 amended: only the body's `success` flag decides failure — the HTTP
status is never inspected, so the outcome is identical for any two
statuses.  When `success == false` the body's error message is surfaced
verbatim when present, else the generic fallback `'Okänt fel'`; in
particular `{success:false, error:"boom"}` renders exactly `"boom"`, and a
subsequent `goNext` from the generation step (with nothing generated
earlier) still fails. -/
theorem server_reported_failure_surfaced (s : WizardState)
    (status status2 : Nat) (d : GenData) (h : d.success = false) :
    (generateCode s (FetchOutcome.ok status d)).2
      = [⟨"Fel: " ++ d.error.getD "Okänt fel", ToastType.error⟩]
    ∧ (generateCode s (FetchOutcome.ok status d)).1.codePreview
      = Preview.errorMsg (d.error.getD "Okänt fel")
    ∧ generateCode s (FetchOutcome.ok status d)
      = generateCode s (FetchOutcome.ok status2 d)
    ∧ (d.error = some "boom" →
        (generateCode s (FetchOutcome.ok status d)).1.codePreview
          = Preview.errorMsg "boom")
    ∧ (s.currentStep = 3 → s.generatedProjectId = none →
        (nextBtnClick (generateCode s
          (FetchOutcome.ok status d)).1).1.currentStep = 3) := by
  have hred : ∀ st : Nat, generateCode s (FetchOutcome.ok st d)
      = ({ s with codePreview := Preview.errorMsg (d.error.getD "Okänt fel"),
                  generateBtnDisabled := false },
         [⟨"Fel: " ++ d.error.getD "Okänt fel", ToastType.error⟩]) := by
    intro st
    unfold generateCode
    simp [h]
  refine ⟨by rw [hred], by rw [hred], by rw [hred, hred], ?_, ?_⟩
  · intro hb
    rw [hred]
    simp [hb]
  · intro h3 hnone
    have hstep : (generateCode s (FetchOutcome.ok status d)).1.currentStep = 3 := by
      rw [generateCode_currentStep, h3]
    have hrn : (generateCode s
        (FetchOutcome.ok status d)).1.generatedProjectId = none := by
      rw [hred]
      exact hnone
    have hval := validateStep3_none (generateCode s (FetchOutcome.ok status d)).1
      hstep hrn
    have hnext := nextBtnClick_invalid (generateCode s (FetchOutcome.ok status d)).1
      (by rw [hval])
    rw [hnext]
    exact hstep

/-- Witness for C8 (amended) at `{success:false, error:"boom"}` received
at step 3 with nothing generated. -/
theorem server_reported_failure_surfaced_witness :
    ({ success := false, project_id := none, scripts := [],
       error := some "boom" } : GenData).success = false
    ∧ (generateCode { initState with currentStep := 3 }
        (FetchOutcome.ok 200
          { success := false, project_id := none, scripts := [],
            error := some "boom" })).1.codePreview = Preview.errorMsg "boom"
    ∧ (nextBtnClick (generateCode { initState with currentStep := 3 }
        (FetchOutcome.ok 200
          { success := false, project_id := none, scripts := [],
            error := some "boom" })).1).1.currentStep = 3 := by
  have h := server_reported_failure_surfaced { initState with currentStep := 3 }
    200 500
    { success := false, project_id := none, scripts := [], error := some "boom" }
    (by decide)
  exact ⟨by decide, h.2.2.2.1 rfl, h.2.2.2.2 rfl rfl⟩

/-- C9: the download button requires a generated project id — with a null
id it only warns (`'Generera kod först (steg 3)'`) and navigates nowhere;
with a non-null id it navigates to `/vr-studio/download/<id>` (and the
controller processes no response — the handler returns nothing else). -/
theorem download_requires_artifact (s : WizardState) :
    (s.generatedProjectId = none →
      downloadBtnClick s
        = (s, none, [⟨"Generera kod först (steg 3)", ToastType.warning⟩]))
    ∧ (∀ pid : String, s.generatedProjectId = some pid →
      downloadBtnClick s
        = (s, some ("/vr-studio/download/" ++ pid),
           [⟨"Laddar ner...", ToastType.success⟩])) := by
  constructor
  · intro h
    unfold downloadBtnClick
    rw [h]
  · intro pid h
    unfold downloadBtnClick
    rw [h]

/-- Witness for C9: no id at the fresh state, and id `"p1"`. -/
theorem download_requires_artifact_witness :
    downloadBtnClick initState
      = (initState, none, [⟨"Generera kod först (steg 3)", ToastType.warning⟩])
    ∧ downloadBtnClick { initState with generatedProjectId := some "p1" }
      = ({ initState with generatedProjectId := some "p1" },
         some "/vr-studio/download/p1",
         [⟨"Laddar ner...", ToastType.success⟩]) :=
  ⟨(download_requires_artifact initState).1 rfl,
   (download_requires_artifact
      { initState with generatedProjectId := some "p1" }).2 "p1" rfl⟩

/-- C10: selection is monotone — from any state with a non-null
`selectedProcedure`, no sequence of wizard operations (next, back, select,
generate, download) ever makes it null again, and `validateStep` at step 1
succeeds in every such subsequent state. -/
theorem selection_monotone (procedures : List Procedure) (ops : List WizardOp)
    (s : WizardState) (h : s.selectedProcedure ≠ none) :
    (applyOps procedures s ops).selectedProcedure ≠ none
    ∧ (validateStep (applyOps procedures s ops) 1).1 = true := by
  have hkeep : ∀ t : WizardState, t.selectedProcedure ≠ none →
      (applyOps procedures t ops).selectedProcedure ≠ none := by
    induction ops with
    | nil => exact fun t ht => ht
    | cons op tl ih =>
        intro t ht
        exact ih (applyOp procedures t op)
          (applyOp_selection_ne_none procedures t op ht)
  refine ⟨hkeep s h, ?_⟩
  have hk := hkeep s h
  unfold validateStep
  simp [hk]

/-- Witness for C10: select `proc_a`, then run next, a failing generate,
and back. -/
theorem selection_monotone_witness :
    ({ initState with selectedProcedure := some "proc_a" }
        : WizardState).selectedProcedure ≠ none
    ∧ ((applyOps [] { initState with selectedProcedure := some "proc_a" }
        [WizardOp.next, WizardOp.generate (FetchOutcome.netError "x"),
         WizardOp.back]).selectedProcedure ≠ none
      ∧ (validateStep (applyOps []
          { initState with selectedProcedure := some "proc_a" }
          [WizardOp.next, WizardOp.generate (FetchOutcome.netError "x"),
           WizardOp.back]) 1).1 = true) :=
  ⟨by decide,
   selection_monotone [] [WizardOp.next,
     WizardOp.generate (FetchOutcome.netError "x"), WizardOp.back]
     { initState with selectedProcedure := some "proc_a" } (by decide)⟩

end VRWizard
